import Mathlib

/-
Verification development for the lyric-video image-sequence generation
controller (src/agents/image_director.py, src/agents/reference_selector.py,
src/agents/style_planner.py, src/utils/claude_client.py,
src/utils/generation_logger.py).

The external collaborators (Anthropic language service, Seedream image
service, wall clock, filesystem) are modelled as oracles supplied to the
embedded functions; the embedded control flow, state accumulation, error
propagation and string handling are translated from the Python source.
Python floats that are only ever copied around (lyric timings, elapsed
times) are modelled as rationals; machine-level float arithmetic is never
relied on.  JSON texts are modelled over a faithful executable subset of
Python's json module (objects, arrays, strings with the common escapes,
integer numbers, booleans, null); the two regular expressions used by
ClaudeClient._extract_json are translated into executable searches with
the exact leftmost / lazy / greedy semantics of Python's re module on the
patterns in question.
-/

namespace LV

/-! ## Characters that the rules of this file spell via code points -/

def obraceChar : Char := Char.ofNat 123

def cbraceChar : Char := Char.ofNat 125

def backtickChar : Char := Char.ofNat 96

def squoteChar : Char := Char.ofNat 39

/-! ## JSON data model (subset of what Python's json module produces) -/

inductive Json where
  | null : Json
  | bool (b : Bool) : Json
  | num (n : Int) : Json
  | str (s : String) : Json
  | arr (elems : List Json) : Json
  | obj (members : List (String × Json)) : Json

/-- Whitespace accepted by Python json.loads around tokens. -/
def jsonWs (c : Char) : Bool := c = ' ' || c = '\t' || c = '\n' || c = '\r'

/-- Python regex \s on ASCII: space, tab, newline, carriage return, vertical tab, form feed. -/
def pyRegexSpace (c : Char) : Bool :=
  c = ' ' || c = '\t' || c = '\n' || c = '\r' || c = Char.ofNat 11 || c = Char.ofNat 12

/-- leadsWith pat s: pat is a leading segment of s. -/
def leadsWith : List Char → List Char → Bool
  | [], _ => true
  | _ :: _, [] => false
  | p :: ps, c :: cs => p == c && leadsWith ps cs

/-- Escape characters accepted inside JSON strings (the \u form is outside this model). -/
def escChar (e : Char) : Option Char :=
  if e = '"' then some '"'
  else if e = '\\' then some '\\'
  else if e = '/' then some '/'
  else if e = 'n' then some '\n'
  else if e = 't' then some '\t'
  else if e = 'r' then some '\r'
  else if e = 'b' then some (Char.ofNat 8)
  else if e = 'f' then some (Char.ofNat 12)
  else none

/-- Body of a JSON string after the opening quote; strict mode rejects raw control chars. -/
def parseStringBody : Nat → List Char → Option (List Char × List Char)
  | 0, _ => none
  | _ + 1, [] => none
  | fuel + 1, c :: rest =>
    if c = '"' then some ([], rest)
    else if c = '\\' then
      match rest with
      | [] => none
      | e :: rest2 =>
        match escChar e with
        | some d => (parseStringBody fuel rest2).map (fun p => (d :: p.1, p.2))
        | none => none
    else if c.toNat < 32 then none
    else (parseStringBody fuel rest).map (fun p => (c :: p.1, p.2))

def takeDigits : List Char → (List Char × List Char)
  | [] => ([], [])
  | c :: r =>
    if c.isDigit then
      let p := takeDigits r
      (c :: p.1, p.2)
    else ([], c :: r)

def digitsToNat (ds : List Char) : Nat :=
  ds.foldl (fun a c => a * 10 + (c.toNat - 48)) 0

/-- JSON natural-number literal: a single 0, or a nonzero digit followed by digits. -/
def parseNatNum : List Char → Option (Nat × List Char)
  | [] => none
  | c :: r =>
    if c = '0' then
      match r with
      | d :: _ => if d.isDigit then none else some (0, r)
      | [] => some (0, [])
    else if c.isDigit then
      let p := takeDigits r
      some (digitsToNat (c :: p.1), p.2)
    else none

def parseIntNum : List Char → Option (Int × List Char)
  | [] => none
  | c :: r =>
    if c = '-' then (parseNatNum r).map (fun p => (-(p.1 : Int), p.2))
    else (parseNatNum (c :: r)).map (fun p => ((p.1 : Int), p.2))

/-- Fractions and exponents would make the number a Python float, outside this model. -/
def numberOk : List Char → Bool
  | [] => true
  | c :: _ => !(c = '.' || c = 'e' || c = 'E')

mutual

def parseValue : Nat → List Char → Option (Json × List Char)
  | 0, _ => none
  | fuel + 1, s =>
    match s.dropWhile jsonWs with
    | [] => none
    | c :: rest =>
      if c = '"' then
        (parseStringBody fuel rest).map (fun p => (Json.str (String.mk p.1), p.2))
      else if c = obraceChar then
        match rest.dropWhile jsonWs with
        | d :: r2 =>
          if d = cbraceChar then some (Json.obj [], r2)
          else
            match parseMembers fuel (d :: r2) with
            | some (ms, r3) => some (Json.obj ms, r3)
            | none => none
        | [] => none
      else if c = '[' then
        match rest.dropWhile jsonWs with
        | ']' :: r2 => some (Json.arr [], r2)
        | d :: r2 =>
          match parseElems fuel (d :: r2) with
          | some (es, r3) => some (Json.arr es, r3)
          | none => none
        | [] => none
      else if leadsWith ['t', 'r', 'u', 'e'] (c :: rest) then
        some (Json.bool true, (c :: rest).drop 4)
      else if leadsWith ['f', 'a', 'l', 's', 'e'] (c :: rest) then
        some (Json.bool false, (c :: rest).drop 5)
      else if leadsWith ['n', 'u', 'l', 'l'] (c :: rest) then
        some (Json.null, (c :: rest).drop 4)
      else
        match parseIntNum (c :: rest) with
        | some (n, r2) => if numberOk r2 then some (Json.num n, r2) else none
        | none => none

def parseMembers : Nat → List Char → Option (List (String × Json) × List Char)
  | 0, _ => none
  | fuel + 1, s =>
    match s.dropWhile jsonWs with
    | c :: rest =>
      if c = '"' then
        match parseStringBody fuel rest with
        | some (key, r1) =>
          match r1.dropWhile jsonWs with
          | ':' :: r2 =>
            match parseValue fuel r2 with
            | some (v, r3) =>
              match r3.dropWhile jsonWs with
              | ',' :: r4 =>
                match parseMembers fuel r4 with
                | some (ms, r5) => some ((String.mk key, v) :: ms, r5)
                | none => none
              | d :: r4 =>
                if d = cbraceChar then some ([(String.mk key, v)], r4) else none
              | [] => none
            | none => none
          | _ => none
        | none => none
      else none
    | [] => none

def parseElems : Nat → List Char → Option (List Json × List Char)
  | 0, _ => none
  | fuel + 1, s =>
    match parseValue fuel s with
    | some (v, r1) =>
      match r1.dropWhile jsonWs with
      | ',' :: r2 =>
        match parseElems fuel r2 with
        | some (es, r3) => some (v :: es, r3)
        | none => none
      | ']' :: r2 => some ([v], r2)
      | _ => none
    | none => none

end

/-- Model of Python json.loads on a character list: one value, surrounding whitespace allowed. -/
def jsonLoads (s : List Char) : Option Json :=
  match parseValue (s.length + 1) s with
  | some (j, rest) => if rest.dropWhile jsonWs = [] then some j else none
  | none => none

/-! ## ClaudeClient._extract_json (src/utils/claude_client.py lines 54-75)

The second attempt of the source is
re.search(r three-backticks (?:json)? \s* (brace .*? brace) \s* three-backticks, text, re.DOTALL):
leftmost occurrence of a code fence whose first non-space content is an open
brace, with the lazy group ending at the first close brace that is followed
by optional whitespace and a closing fence.  The third attempt is
re.search(r brace .* brace, text, re.DOTALL): from the first open brace of
the text to the last close brace of the text (greedy), provided the close
brace comes after the open brace. -/

/-- Suffix of s starting at its first open brace. -/
def dropToOpen : List Char → Option (List Char)
  | [] => none
  | c :: r => if c = obraceChar then some (c :: r) else dropToOpen r

/-- Longest leading segment of s that ends with a close brace (i.e. cut after the last one). -/
def takeToLastClose : List Char → Option (List Char)
  | [] => none
  | c :: r =>
    match takeToLastClose r with
    | some t => some (c :: t)
    | none => if c = cbraceChar then some [c] else none

/-- Match of the greedy pattern: first open brace through last close brace. -/
def greedyBraces (s : List Char) : Option (List Char) :=
  match dropToOpen s with
  | some (c :: rest) =>
    match takeToLastClose rest with
    | some t => some (c :: t)
    | none => none
  | _ => none

def fence3 : List Char := [backtickChar, backtickChar, backtickChar]

def jsonTag : List Char := ['j', 's', 'o', 'n']

/-- After a candidate close brace: optional whitespace then a closing fence. -/
def closesFence (s : List Char) : Bool :=
  leadsWith fence3 (s.dropWhile pyRegexSpace)

/-- Lazy group body: everything up to the first close brace whose remainder closes the fence. -/
def lazyClose : List Char → Option (List Char)
  | [] => none
  | c :: r =>
    if c = cbraceChar && closesFence r then some [c]
    else
      match lazyClose r with
      | some t => some (c :: t)
      | none => none

/-- Attempt the fence pattern at one position (s is the text just after an opening fence). -/
def fenceAt (s : List Char) : Option (List Char) :=
  match (if leadsWith jsonTag s then s.drop 4 else s).dropWhile pyRegexSpace with
  | c :: r => if c = obraceChar then (lazyClose r).map (fun t => c :: t) else none
  | [] => none

/-- Leftmost match of the fenced pattern over the whole text. -/
def fencedSearch : List Char → Option (List Char)
  | [] => none
  | c :: r =>
    if leadsWith fence3 (c :: r) then
      match fenceAt ((c :: r).drop 3) with
      | some g => some g
      | none => fencedSearch r
    else fencedSearch r

def extractErr (text : List Char) : String :=
  "Could not extract JSON from response: " ++ String.mk (text.take 200)

/-- The third attempt of _extract_json: the greedy brace match, parsed, else the
ValueError is raised. -/
def extractFallback (text : List Char) : Except String Json :=
  match greedyBraces text with
  | some sub =>
    match jsonLoads sub with
    | some j => Except.ok j
    | none => Except.error (extractErr text)
  | none => Except.error (extractErr text)

/-- ClaudeClient._extract_json: bare json.loads, then the fenced pattern, then the
greedy brace pattern, else ValueError carrying the first 200 characters. -/
def extractJson (text : List Char) : Except String Json :=
  match jsonLoads text with
  | some j => .ok j
  | none =>
    match fencedSearch text with
    | some inner =>
      match jsonLoads inner with
      | some j => .ok j
      | none => extractFallback text
    | none => extractFallback text

/-! ## Data model (src/models/data_models.py) -/

structure LyricLine where
  id : String
  song_id : String
  line_number : Nat
  english_text : String
  korean_text : String
  start_time_seconds : Rat
  end_time_seconds : Rat
  voice_over_file_path : Option String := none
  breakdown_data : Option Json := none
  is_published : Bool := true

structure SongMetadata where
  id : String
  title : String
  artist : Option String := none
  description : Option String := none
  audio_file_path : String := ""
  duration_seconds : Option Rat := none
  artist_gender : Option String := none
  original_lyrics_text : Option String := none
  cover_image_prompt : Option String := none

structure CustomCreativeInput where
  story_description : Option String := none
  character_male_description : Option String := none
  character_female_description : Option String := none
  is_conversation : Option Bool := none

structure StyleGuide where
  visual_style : String
  segment_story : String
  is_conversation : Bool := true
deriving DecidableEq, Repr

structure GeneratedImage where
  line_number : Nat
  image_path : String
  prompt_used : String
  start_time : Rat
  end_time : Rat
  used_reference : Bool
  reference_image : Option String := none
  generation_time : Option Rat := none
deriving DecidableEq, Repr

/-! ## Python runtime errors surfaced by the embedded code -/

inductive PyErr where
  | typeError (msg : String)
  | keyError (k : String)
  | indexError (msg : String)
  | zeroDivisionError
  | valueError (msg : String)
  | serviceError (msg : String)
deriving DecidableEq, Repr

/-- str(e) as interpolated into the failure log line. -/
def pyErrMsg : PyErr → String
  | .typeError m => m
  | .keyError k => k
  | .indexError m => m
  | .zeroDivisionError => "division by zero"
  | .valueError m => m
  | .serviceError m => m

/-! ## Python dict / list access used on service responses -/

/-- Python dict lookup on a parsed JSON object: later duplicate keys overwrite earlier ones. -/
def pyLookup (members : List (String × Json)) (k : String) : Option Json :=
  match members.reverse.find? (fun m => m.1 = k) with
  | some m => some m.2
  | none => none

/-- d[k]: KeyError when missing, TypeError when the value is not a dict. -/
def pyGetItem (j : Json) (k : String) : Except PyErr Json :=
  match j with
  | .obj ms =>
    match pyLookup ms k with
    | some v => .ok v
    | none => .error (.keyError k)
  | _ => .error (.typeError "object is not subscriptable")

/-- d.get(k, default). -/
def pyGetD (j : Json) (k : String) (default : Json) : Json :=
  match j with
  | .obj ms =>
    match pyLookup ms k with
    | some v => v
    | none => default
  | _ => default

/-- xs[i] on a parsed JSON array. -/
def pyIndex (j : Json) (i : Nat) : Except PyErr Json :=
  match j with
  | .arr es =>
    match es.get? i with
    | some v => .ok v
    | none => .error (.indexError "list index out of range")
  | _ => .error (.typeError "object is not subscriptable")

/-- Numeric value usable in Python comparisons 0 <= idx < n (bool is an int subtype). -/
def jsonToIdx : Json → Option Int
  | .num n => some n
  | .bool b => some (if b then 1 else 0)
  | _ => none

/-- Python truthiness of an optional string: None and the empty string are falsy. -/
def truthyStr : Option String → Option String
  | some s => if s = "" then none else some s
  | none => none

/-! ## CPython argument binding (for the ImageDirector -> ClaudeClient call sites)

A call with npos positional arguments and the given keyword names is bound
against a parameter list (self excluded on both sides, no defaults in the
signatures in question).  CPython reports, in this order: too many
positional arguments, then a keyword that also received a positional value,
then an unexpected keyword, then a missing argument. -/

inductive PyBindErr where
  | tooManyPositional (given expected : Nat)
  | multipleValues (param : String)
  | unexpectedKeyword (param : String)
  | missingArgument (param : String)
deriving DecidableEq, Repr

def bindCall (params : List String) (npos : Nat) (kwargs : List String) :
    Except PyBindErr Unit :=
  if params.length < npos then .error (.tooManyPositional npos params.length)
  else
    match kwargs.find? (fun k => (params.take npos).contains k) with
    | some k => .error (.multipleValues k)
    | none =>
      match kwargs.find? (fun k => !(params.contains k)) with
      | some k => .error (.unexpectedKeyword k)
      | none =>
        match (params.drop npos).find? (fun p => !(kwargs.contains p)) with
        | some p => .error (.missingArgument p)
        | none => .ok ()

/-- Parameters of ClaudeClient.generate_first_prompt (src/utils/claude_client.py line 118),
self excluded. -/
def generate_first_prompt_params : List String := ["lyric_line", "style_guide"]

/-- Parameters of ClaudeClient.generate_next_prompt (src/utils/claude_client.py line 171),
self excluded. -/
def generate_next_prompt_params : List String :=
  ["previous_prompts", "current_lyric", "style_guide", "line_number", "total_lines"]

/-- The first-line call site (src/agents/image_director.py lines 138-142) passes
lyric.dict(), style_guide.dict(), character_design_prompts: 3 positional arguments. -/
def director_first_call_npos : Nat := 3

def director_first_call_kwargs : List String := []

/-- The subsequent-line call site (src/agents/image_director.py lines 147-154) passes
previous_prompts, lyric.dict(), style_guide.dict(), character_design_prompts positionally
plus line_number= and total_lines= as keywords. -/
def director_next_call_npos : Nat := 4

def director_next_call_kwargs : List String := ["line_number", "total_lines"]

/-! ## StylePlanner.create_style_guide (src/agents/style_planner.py) -/

/-- The fixed visual style of the custom-story path (src/agents/style_planner.py line 21). -/
def webtoonVisualStyle : String :=
  "High-quality Korean webtoon style with clean digital illustration, soft natural colors, expressive faces, modern fashion, atmospheric lighting"

/-- Lyric-context formatting: newline-joined "Line n: english / korean". -/
def formatLyricsText (ls : List LyricLine) : String :=
  String.intercalate "\n"
    (ls.map (fun l =>
      "Line " ++ toString l.line_number ++ ": " ++ l.english_text ++ " / " ++ l.korean_text))

/-- The song dict sent to the language service by the auto path. -/
def songDictOf (song : SongMetadata) : Json :=
  Json.obj
    [("description", match song.description with | some d => Json.str d | none => Json.null),
     ("title", Json.str song.title),
     ("artist", match song.artist with | some a => Json.str a | none => Json.null)]

/-- StyleGuide(**style_data): pydantic requires visual_style and segment_story to be
strings; is_conversation defaults to true; extra keys are ignored. -/
def styleGuideOfJson (j : Json) : Except PyErr StyleGuide :=
  match pyGetD j "visual_style" Json.null, pyGetD j "segment_story" Json.null with
  | Json.str vs, Json.str ss =>
    match pyGetD j "is_conversation" (Json.bool true) with
    | Json.bool b => .ok { visual_style := vs, segment_story := ss, is_conversation := b }
    | _ => .error (.valueError "validation error for StyleGuide")
  | _, _ => .error (.valueError "validation error for StyleGuide")

/-- Oracle for ClaudeClient.create_style_guide: song dict, full lyric text, target lyric
text, yielding the parsed structured response (or the failure its call raised). -/
structure StyleOracle where
  create_style_guide : Json → String → String → Except PyErr Json

/-- StylePlanner.create_style_guide.  The second component counts calls made to the
language generation service.  The custom path is taken exactly when custom_input is
given and its story_description is truthy (Python: non-None and non-empty). -/
def create_style_guide (oracle : StyleOracle) (song : SongMetadata)
    (all_lyrics : List LyricLine) (target_lyrics : List LyricLine)
    (custom_input : Option CustomCreativeInput) : Except PyErr StyleGuide × Nat :=
  match custom_input with
  | some ci =>
    match truthyStr ci.story_description with
    | some st =>
      (.ok { visual_style := webtoonVisualStyle
             segment_story := st
             is_conversation := ci.is_conversation.getD true }, 0)
    | none => autoStyle oracle song all_lyrics target_lyrics
  | none => autoStyle oracle song all_lyrics target_lyrics
where
  autoStyle (oracle : StyleOracle) (song : SongMetadata)
      (all_lyrics target_lyrics : List LyricLine) : Except PyErr StyleGuide × Nat :=
    match oracle.create_style_guide (songDictOf song) (formatLyricsText all_lyrics)
        (formatLyricsText target_lyrics) with
    | .ok j => (styleGuideOfJson j, 1)
    | .error e => (.error e, 1)

/-! ## ReferenceSelector.select_references (src/agents/reference_selector.py) -/

/-- Result dict of select_references: paths, indices (echoed raw), reasoning. -/
structure SelectionResult where
  paths : List String
  indices : List Json
  reasoning : Json

/-- Oracle for ClaudeClient.select_reference_images: prompts analysis text, current
lyric dict, style guide dict, line number, count of previous prompts. -/
structure SelectorOracle where
  select_reference_images : String → Json → StyleGuide → Nat → Nat → Except PyErr Json

/-- First 150 characters, as in the f-string "Image i: prompt[:150]...". -/
def clip150 (s : String) : String := String.mk (s.toList.take 150)

def promptsAnalysis (previous_prompts : List String) : String :=
  String.intercalate "\n"
    ((previous_prompts.enum.map (fun p =>
      "Image " ++ toString p.1 ++ ": " ++ clip150 p.2 ++ "...")))

/-- The loop mapping proposed indices to paths: iterating a non-list raises TypeError,
as does comparing a non-number against 0; indices in [0, len(paths)) contribute the
path at that index, others are skipped. -/
def mapIndicesToPaths (paths : List String) : List Json → Except PyErr (List String)
  | [] => .ok []
  | v :: vs =>
    match jsonToIdx v with
    | none => .error (.typeError "not supported between instances")
    | some i =>
      match mapIndicesToPaths paths vs with
      | .ok rest =>
        if 0 ≤ i ∧ i < (paths.length : Int) then
          match paths.get? i.toNat with
          | some p => .ok (p :: rest)
          | none => .ok rest
        else .ok rest
      | .error e => .error e

/-- ReferenceSelector.select_references. -/
def select_references (oracle : SelectorOracle) (previous_prompts : List String)
    (previous_paths : List String) (current_lyric : Json) (style_guide : StyleGuide)
    (line_number : Nat) : Except PyErr SelectionResult :=
  if previous_prompts.length = 0 then
    .ok { paths := [], indices := [], reasoning := Json.str "First image, no references" }
  else
    match oracle.select_reference_images (promptsAnalysis previous_prompts) current_lyric
        style_guide line_number previous_prompts.length with
    | .error e => .error e
    | .ok selection =>
      match pyGetD selection "selected_indices" (Json.arr []) with
      | Json.arr idxs =>
        match mapIndicesToPaths previous_paths idxs with
        | .ok selected_paths =>
          .ok { paths := selected_paths, indices := idxs,
                reasoning := pyGetD selection "reasoning" (Json.str "No reasoning provided") }
        | .error e => .error e
      | _ => .error (.typeError "object is not iterable")

/-! ## GenerationLogger (src/utils/generation_logger.py)

The append-only text log is modelled as a list of structured entries, one per
method call of the source logger (headers, the style dump, per-line markers,
prompt entries, result entries, summary pieces); the string formatting of the
source is carried in the entries' payloads. -/

inductive LogEntry where
  | headerBanner
  | text (s : String)
  | sectionHeader (title : String)
  | subsectionHeader (title : String)
  | lineStart (line_number : Nat) (english korean : String)
  | styleDump (visual_style segment_story : String)
  | charDesigns (refs prompts : List String)
  | promptGen (prompt : String) (reasoning : Option String)
  | generationResult (success : Bool) (generation_time : Rat) (image_path : String)
  | summaryCount (n : Nat)
  | summaryTotal (t : Rat)
  | summaryAvg (t : Rat)
deriving DecidableEq, Repr

def log_style_guide (sg : StyleGuide) : List LogEntry :=
  [.sectionHeader "STYLE GUIDE GENERATION", .styleDump sg.visual_style sg.segment_story]

def log_line_start (n : Nat) (english korean : String) : List LogEntry :=
  [.lineStart n english korean]

def log_prompt_generation (prompt : String) (reasoning : Option String) : List LogEntry :=
  [.subsectionHeader "CLAUDE PROMPT GENERATION", .promptGen prompt reasoning]

def log_generation_result (success : Bool) (generation_time : Rat) (image_path : String) :
    List LogEntry :=
  [.subsectionHeader "GENERATION RESULT", .generationResult success generation_time image_path]

/-- GenerationLogger.log_summary: the section header and the first two lines are
written, then the average is total_time / total_images — a ZeroDivisionError when
no image was generated. -/
def log_summary (total_images : Nat) (total_time : Rat) : List LogEntry × Option PyErr :=
  let pre : List LogEntry :=
    [.sectionHeader "GENERATION SUMMARY", .summaryCount total_images, .summaryTotal total_time]
  if total_images = 0 then (pre, some .zeroDivisionError)
  else (pre ++ [.summaryAvg (total_time / (total_images : Rat))], none)

/-- The banner written when the log file is opened. -/
def loggerHeader : List LogEntry := [.headerBanner]

/-- The custom-input block of generate_all_images: each field is logged only when
truthy (strings) or non-None (the conversation flag). -/
def log_custom_input : Option CustomCreativeInput → List LogEntry
  | none => []
  | some ci =>
    [LogEntry.text "\n=== CUSTOM INPUT PROVIDED ==="]
    ++ (match truthyStr ci.story_description with
        | some s => [LogEntry.text ("Custom Story: " ++ s)]
        | none => [])
    ++ (match truthyStr ci.character_male_description with
        | some s => [LogEntry.text ("Custom Male Character: " ++ s)]
        | none => [])
    ++ (match truthyStr ci.character_female_description with
        | some s => [LogEntry.text ("Custom Female Character: " ++ s)]
        | none => [])
    ++ (match ci.is_conversation with
        | some b => [LogEntry.text ("Is Conversation: " ++ toString b)]
        | none => [])
    ++ [LogEntry.text ""]

def log_char_designs (refs prompts : List String) : List LogEntry :=
  [.text "\n=== CHARACTER DESIGNS GENERATED ===", .charDesigns refs prompts]

/-! ## ImageDirector (src/agents/image_director.py)

The two generative services and the wall clock are oracles.  The claude oracle
carries the call shapes the director uses at its call sites (the shipped
ClaudeClient cannot actually be bound to them, see the bindCall development
above); lyric.dict() / style_guide.dict() round-trip the models, so the
structures are passed directly. -/

structure ClaudeIface where
  generate_character_design : StyleGuide → String → Except PyErr String
  generate_first_prompt : LyricLine → StyleGuide → List String → Except PyErr String
  generate_next_prompt :
    List String → LyricLine → StyleGuide → List String → Nat → Nat → Except PyErr Json

structure SeedreamIface where
  generate_image : String → Option (List String) → Except PyErr Json
  download_image : String → String → Except PyErr Unit

structure Clock where
  genTime : Nat → Rat
  totalTime : Rat

structure DirectorEnv where
  claude : ClaudeIface
  seedream : SeedreamIface
  clock : Clock

def framesDir (song_id : String) : String := "output/frames/" ++ song_id

/-- result['data'][0]['url'] followed by its use as a URL string. -/
def resultUrl (result : Json) : Except PyErr String :=
  match pyGetItem result "data" with
  | .error e => .error e
  | .ok data =>
    match pyIndex data 0 with
    | .error e => .error e
    | .ok first =>
      match pyGetItem first "url" with
      | .error e => .error e
      | .ok (Json.str u) => .ok u
      | .ok _ => .error (.typeError "url is not a string")

/-- f"line_{n:03d}" zero padding. -/
def pad3 (n : Nat) : String :=
  if n < 10 then "00" ++ toString n
  else if n < 100 then "0" ++ toString n
  else toString n

/-- str(character_refs) for a Python list of PosixPath values. -/
def strOfPathList (ps : List String) : String :=
  let q := String.singleton squoteChar
  "[" ++ String.intercalate ", " (ps.map (fun p => "PosixPath(" ++ q ++ p ++ q ++ ")")) ++ "]"

/-- ImageDirector.generate_character_designs: male then female role, custom
description used verbatim when truthy, one image request and one download per
role, fixed per-role filenames; any failure aborts the whole step. -/
def generate_character_designs (env : DirectorEnv) (style_guide : StyleGuide)
    (song_id : String) (custom_input : Option CustomCreativeInput) :
    Except PyErr (List String × List String) := do
  let frames_dir := framesDir song_id
  let male_prompt ←
    match custom_input.bind (fun ci => truthyStr ci.character_male_description) with
    | some d => pure d
    | none => env.claude.generate_character_design style_guide "male"
  let male_result ← env.seedream.generate_image male_prompt none
  let male_url ← resultUrl male_result
  let male_path := frames_dir ++ "/character_male.jpg"
  let _ ← env.seedream.download_image male_url male_path
  let female_prompt ←
    match custom_input.bind (fun ci => truthyStr ci.character_female_description) with
    | some d => pure d
    | none => env.claude.generate_character_design style_guide "female"
  let female_result ← env.seedream.generate_image female_prompt none
  let female_url ← resultUrl female_result
  let female_path := frames_dir ++ "/character_female.jpg"
  let _ ← env.seedream.download_image female_url female_path
  return ([male_path, female_path], [male_prompt, female_prompt])

structure RunState where
  images : List GeneratedImage
  prompts : List String
  log : List LogEntry
deriving DecidableEq, Repr

/-- The prompt-obtaining phase of one loop iteration: the first line gets a plain
prompt string; subsequent lines get a structured decision whose seedream_prompt and
creative_reasoning entries are read by subscript (KeyError when absent; the
reasoning is sliced for display, so a non-string raises).  Failures here occur
outside the try block, so they propagate without a failed-result log entry. -/
def obtain_prompt (env : DirectorEnv) (style_guide : StyleGuide)
    (character_design_prompts : List String) (total_lines idx : Nat) (lyric : LyricLine)
    (previous_prompts : List String) : Except PyErr (String × List LogEntry) :=
  if idx = 0 then
    match env.claude.generate_first_prompt lyric style_guide character_design_prompts with
    | .ok p => .ok (p, log_prompt_generation p none)
    | .error e => .error e
  else
    match env.claude.generate_next_prompt previous_prompts lyric style_guide
        character_design_prompts lyric.line_number total_lines with
    | .error e => .error e
    | .ok decision =>
      match pyGetItem decision "seedream_prompt" with
      | .error e => .error e
      | .ok (Json.str p) =>
        match pyGetItem decision "creative_reasoning" with
        | .error e => .error e
        | .ok (Json.str r) => .ok (p, log_prompt_generation p (some r))
        | .ok _ => .error (.typeError "reasoning is not subscriptable")
      | .ok _ => .error (.typeError "prompt is not a string")

/-- The body of the try block: image request with the character references,
URL extraction, deterministic zero-padded per-line filename, download. -/
def try_generate (env : DirectorEnv) (character_refs : List String) (frames_dir : String)
    (lyric : LyricLine) (prompt : String) : Except PyErr String := do
  let result ← env.seedream.generate_image prompt (some character_refs)
  let image_url ← resultUrl result
  let image_path := frames_dir ++ "/line_" ++ pad3 lyric.line_number ++ ".jpg"
  let _ ← env.seedream.download_image image_url image_path
  return image_path

def referenceNote : LogEntry :=
  .text "  Reference: Character designs (male + female portraits)\n"

/-- One iteration of the generation loop: line marker, prompt phase, reference
note, try block; on success a GeneratedImage carrying the lyric's own timing is
appended and the prompt is appended to the history; on a try-block failure the
failed outcome is logged and the exception re-raised with the log so far. -/
def process_line (env : DirectorEnv) (style_guide : StyleGuide)
    (character_design_prompts character_refs : List String) (frames_dir : String)
    (total_lines idx : Nat) (lyric : LyricLine) (st : RunState) :
    Except (List LogEntry × PyErr) RunState :=
  let log1 := st.log ++ log_line_start lyric.line_number lyric.english_text lyric.korean_text
  match obtain_prompt env style_guide character_design_prompts total_lines idx lyric
      st.prompts with
  | .error e => .error (log1, e)
  | .ok (prompt, plog) =>
    let log2 := log1 ++ plog ++ [referenceNote]
    match try_generate env character_refs frames_dir lyric prompt with
    | .ok image_path =>
      let generation_time := env.clock.genTime idx
      let img : GeneratedImage :=
        { line_number := lyric.line_number
          image_path := image_path
          prompt_used := prompt
          start_time := lyric.start_time_seconds
          end_time := lyric.end_time_seconds
          used_reference := true
          reference_image := some (strOfPathList character_refs)
          generation_time := some generation_time }
      .ok { images := st.images ++ [img]
            prompts := st.prompts ++ [prompt]
            log := log2 ++ log_generation_result true generation_time image_path }
    | .error e =>
      .error (log2 ++ log_generation_result false (env.clock.genTime idx)
        ("ERROR: " ++ pyErrMsg e), e)

/-- The enumerated loop over the target lines, threading the accumulator state;
the first failure aborts the remainder. -/
def run_lines (env : DirectorEnv) (style_guide : StyleGuide)
    (character_design_prompts character_refs : List String) (frames_dir : String)
    (total_lines : Nat) : Nat → List LyricLine → RunState →
    Except (List LogEntry × PyErr) RunState
  | _, [], st => .ok st
  | idx, l :: ls, st =>
    match process_line env style_guide character_design_prompts character_refs frames_dir
        total_lines idx l st with
    | .ok st2 =>
      run_lines env style_guide character_design_prompts character_refs frames_dir
        total_lines (idx + 1) ls st2
    | .error e => .error e

/-- ImageDirector.generate_all_images: header and style/custom-input dump,
character designs, the per-line loop, then the summary (whose average-time
division fails when zero images were generated).  The first component is the
log written up to the point the function returned or raised. -/
def generate_all_images (env : DirectorEnv) (target_lyrics : List LyricLine)
    (style_guide : StyleGuide) (song_id : String)
    (custom_input : Option CustomCreativeInput) :
    List LogEntry × Except PyErr (List GeneratedImage) :=
  match generate_character_designs env style_guide song_id custom_input with
  | .error e =>
    (loggerHeader ++ log_style_guide style_guide ++ log_custom_input custom_input, .error e)
  | .ok (character_refs, character_design_prompts) =>
    match run_lines env style_guide character_design_prompts character_refs
        (framesDir song_id) target_lyrics.length 0 target_lyrics
        { images := [], prompts := [],
          log := loggerHeader ++ log_style_guide style_guide ++ log_custom_input custom_input
            ++ log_char_designs character_refs character_design_prompts } with
    | .error (lg, e) => (lg, .error e)
    | .ok st =>
      match log_summary st.images.length env.clock.totalTime with
      | (sumLog, some e) => (st.log ++ sumLog, .error e)
      | (sumLog, none) => (st.log ++ sumLog, .ok st.images)

/-! ## Concrete fixtures used to evaluate the development on closed inputs -/

def sgA : StyleGuide := { visual_style := "V", segment_story := "S", is_conversation := true }

def songA : SongMetadata := { id := "s1", title := "T" }

def l1 : LyricLine :=
  { id := "L1", song_id := "song1", line_number := 1, english_text := "E1",
    korean_text := "K1", start_time_seconds := 0, end_time_seconds := 2 }

def l2 : LyricLine :=
  { id := "L2", song_id := "song1", line_number := 2, english_text := "E2",
    korean_text := "K2", start_time_seconds := 2, end_time_seconds := 4 }

def lyricJA : Json := Json.obj [("english_text", Json.str "hello")]

/-- A style oracle whose structured response is fixed. -/
def styleOracleA : StyleOracle :=
  { create_style_guide := fun _ _ _ => .ok (Json.obj
      [("visual_style", Json.str "ink wash"),
       ("segment_story", Json.str "auto story"),
       ("is_conversation", Json.bool false)]) }

/-- A selector oracle proposing five indices, one of them out of range. -/
def selOracleBad : SelectorOracle :=
  { select_reference_images := fun _ _ _ _ _ => .ok (Json.obj
      [("selected_indices",
        Json.arr [Json.num 0, Json.num 1, Json.num 2, Json.num 3, Json.num 7]),
       ("reasoning", Json.str "style continuity")]) }

/-- A selector oracle whose response omits selected_indices. -/
def selOracleNoField : SelectorOracle :=
  { select_reference_images := fun _ _ _ _ _ =>
      .ok (Json.obj [("reasoning", Json.str "keep style")]) }

def okImageJson (u : String) : Json :=
  Json.obj [("data", Json.arr [Json.obj [("url", Json.str u)]])]

/-- A language-service oracle that always succeeds; the next-prompt decision carries
all three documented fields. -/
def claudeOk : ClaudeIface :=
  { generate_character_design := fun _ g => .ok ("portrait " ++ g)
    generate_first_prompt := fun _ _ _ => .ok "P1"
    generate_next_prompt := fun _ ly _ _ _ _ => .ok (Json.obj
      [("creative_reasoning", Json.str "vary"),
       ("seedream_prompt", Json.str ("P" ++ toString ly.line_number)),
       ("use_previous_as_reference", Json.bool true)]) }

/-- Identical to claudeOk except that the decision omits use_previous_as_reference. -/
def claudeNoFlag : ClaudeIface :=
  { claudeOk with generate_next_prompt := fun _ ly _ _ _ _ => .ok (Json.obj
      [("creative_reasoning", Json.str "vary"),
       ("seedream_prompt", Json.str ("P" ++ toString ly.line_number))]) }

def seedreamOk : SeedreamIface :=
  { generate_image := fun p _ => .ok (okImageJson ("http://img/" ++ p))
    download_image := fun _ _ => .ok () }

/-- An image service that rejects the request for line 2's prompt. -/
def seedreamFailP2 : SeedreamIface :=
  { generate_image := fun p _ =>
      if p = "P2" then .error (.serviceError "Seedream API error")
      else .ok (okImageJson ("http://img/" ++ p))
    download_image := fun _ _ => .ok () }

def clockA : Clock := { genTime := fun _ => 2, totalTime := 10 }

def envA : DirectorEnv := { claude := claudeOk, seedream := seedreamOk, clock := clockA }

def envB : DirectorEnv := { claude := claudeNoFlag, seedream := seedreamOk, clock := clockA }

def envFail : DirectorEnv := { claude := claudeOk, seedream := seedreamFailP2, clock := clockA }

def crefsA : List String :=
  ["output/frames/song1/character_male.jpg", "output/frames/song1/character_female.jpg"]

def cdpA : List String := ["portrait male", "portrait female"]

/-- Agreement of two next-prompt services on everything the director reads from the
structured decision: the seedream_prompt and creative_reasoning entries (and the
failure raised, when they fail).  Responses may differ on any other field, in
particular on the presence or value of use_previous_as_reference. -/
def nextAgree
    (f g : List String → LyricLine → StyleGuide → List String → Nat → Nat →
      Except PyErr Json) : Prop :=
  ∀ ps ly sg cdp n t,
    match f ps ly sg cdp n t, g ps ly sg cdp n t with
    | .ok d1, .ok d2 =>
      pyGetItem d1 "seedream_prompt" = pyGetItem d2 "seedream_prompt"
      ∧ pyGetItem d1 "creative_reasoning" = pyGetItem d2 "creative_reasoning"
    | .error e1, .error e2 => e1 = e2
    | _, _ => False

/-- The log prefix generate_all_images writes before the loop on the fixtures. -/
def logPreA : List LogEntry :=
  loggerHeader ++ log_style_guide sgA ++ log_custom_input none ++ log_char_designs crefsA cdpA

def img1A : GeneratedImage :=
  { line_number := 1, image_path := "output/frames/song1/line_001.jpg", prompt_used := "P1",
    start_time := 0, end_time := 2, used_reference := true,
    reference_image := some (strOfPathList crefsA), generation_time := some 2 }

def img2A : GeneratedImage :=
  { line_number := 2, image_path := "output/frames/song1/line_002.jpg", prompt_used := "P2",
    start_time := 2, end_time := 4, used_reference := true,
    reference_image := some (strOfPathList crefsA), generation_time := some 2 }

def line1Log : List LogEntry :=
  log_line_start 1 "E1" "K1" ++ log_prompt_generation "P1" none ++ [referenceNote]
    ++ log_generation_result true 2 "output/frames/song1/line_001.jpg"

def line2Log : List LogEntry :=
  log_line_start 2 "E2" "K2" ++ log_prompt_generation "P2" (some "vary") ++ [referenceNote]
    ++ log_generation_result true 2 "output/frames/song1/line_002.jpg"

/-- The loop state after both fixture lines succeed (initial log empty). -/
def st6W : RunState :=
  { images := [img1A, img2A], prompts := ["P1", "P2"], log := line1Log ++ line2Log }

/-- The loop state after fixture line 1 succeeds inside generate_all_images. -/
def stK1 : RunState :=
  { images := [img1A], prompts := ["P1"], log := logPreA ++ line1Log }

/-! ## Claim theorems -/

/-- C1: the prompt requests of generate_all_images cannot carry the character-design
prompts — the code is broken at the director/client interface.  Binding the
director's first-line call (3 positional arguments: lyric dict, style-guide dict,
character_design_prompts) against ClaudeClient.generate_first_prompt's parameter
list raises TypeError (3 positional arguments given, 2 accepted), and binding the
subsequent-line call (4 positional arguments plus line_number= and total_lines=)
against ClaudeClient.generate_next_prompt's parameter list raises TypeError
(line_number receives both a positional and a keyword value).  So for every lyric
line the call raises before any request reaches the language service. -/
theorem c1_prompt_request_interface_mismatch :
    bindCall generate_first_prompt_params director_first_call_npos director_first_call_kwargs
      = .error (.tooManyPositional 3 2)
    ∧ bindCall generate_next_prompt_params director_next_call_npos director_next_call_kwargs
      = .error (.multipleValues "line_number") :=
  ⟨rfl, rfl⟩

/-- C5 counterexample: a custom_input whose story_description is present but equal
to the empty string is falsy in Python, so create_style_guide takes the
auto-generation path: one language-service call is made and the returned story is
the service's, not the override. -/
theorem c5_custom_override_cex :
    create_style_guide styleOracleA songA [] [] (some { story_description := some "" })
      = (.ok { visual_style := "ink wash", segment_story := "auto story",
               is_conversation := false }, 1) := rfl

/-- C5 (amended): for every custom_input whose story_description is present AND
non-empty, the returned StyleGuide's segment_story equals the override verbatim,
its is_conversation equals the custom override when one is given and true
otherwise, and zero calls are made to the language generation service. -/
theorem c5_custom_override (oracle : StyleOracle) (song : SongMetadata)
    (all_lyrics target_lyrics : List LyricLine) (ci : CustomCreativeInput) (st : String)
    (hst : ci.story_description = some st) (hne : st ≠ "") :
    create_style_guide oracle song all_lyrics target_lyrics (some ci)
      = (.ok { visual_style := webtoonVisualStyle, segment_story := st,
               is_conversation := ci.is_conversation.getD true }, 0) := by
  simp only [create_style_guide, hst, truthyStr]
  rw [if_neg hne]

theorem c5_custom_override_witness :
    (some "Two friends at a cafe" : Option String) ≠ none
    ∧ "Two friends at a cafe" ≠ ""
    ∧ create_style_guide styleOracleA songA [] []
        (some { story_description := some "Two friends at a cafe",
                is_conversation := some false })
      = (.ok { visual_style := webtoonVisualStyle,
               segment_story := "Two friends at a cafe",
               is_conversation := false }, 0) :=
  ⟨by decide, by decide,
   c5_custom_override styleOracleA songA [] []
     { story_description := some "Two friends at a cafe", is_conversation := some false }
     "Two friends at a cafe" rfl (by decide)⟩

/-- C10: in the custom-story path, the returned StyleGuide's visual_style is the
fixed hard-coded Korean-webtoon constant webtoonVisualStyle, for every oracle,
song, lyric context and every other field of the custom input. -/
theorem c10_fixed_visual_style (oracle : StyleOracle) (song : SongMetadata)
    (all_lyrics target_lyrics : List LyricLine) (ci : CustomCreativeInput) (st : String)
    (g : StyleGuide)
    (hst : ci.story_description = some st) (hne : st ≠ "")
    (hg : (create_style_guide oracle song all_lyrics target_lyrics (some ci)).1 = .ok g) :
    g.visual_style = webtoonVisualStyle := by
  simp only [create_style_guide, hst, truthyStr] at hg
  rw [if_neg hne] at hg
  injection hg with h
  rw [← h]

theorem c10_fixed_visual_style_witness :
    (create_style_guide styleOracleA songA [] []
        (some { story_description := some "A rainy farewell" })).1
      = .ok { visual_style := webtoonVisualStyle, segment_story := "A rainy farewell",
              is_conversation := true }
    ∧ (StyleGuide.mk webtoonVisualStyle "A rainy farewell" true).visual_style
        = webtoonVisualStyle :=
  ⟨rfl,
   c10_fixed_visual_style styleOracleA songA [] []
     { story_description := some "A rainy farewell" } "A rainy farewell"
     (StyleGuide.mk webtoonVisualStyle "A rainy farewell" true) rfl (by decide) rfl⟩

/-- C9: calling generate_all_images with an empty target range (after a successful
character-design step) runs zero loop iterations and then log_summary divides the
total elapsed time by the image count, which is zero, so the call raises
ZeroDivisionError: the empty range is not handled at the public interface. -/
theorem c9_empty_range_division (env : DirectorEnv) (style_guide : StyleGuide)
    (song_id : String) (custom_input : Option CustomCreativeInput)
    (refs prompts : List String)
    (h : generate_character_designs env style_guide song_id custom_input
      = .ok (refs, prompts)) :
    (generate_all_images env [] style_guide song_id custom_input).2
      = .error PyErr.zeroDivisionError := by
  unfold generate_all_images
  rw [h]
  rfl

theorem c9_empty_range_division_witness :
    generate_character_designs envA sgA "song1" none = .ok (crefsA, cdpA)
    ∧ (generate_all_images envA [] sgA "song1" none).2 = .error PyErr.zeroDivisionError :=
  ⟨rfl, c9_empty_range_division envA sgA "song1" none crefsA cdpA rfl⟩

/-- Every path produced by the index-to-path loop is a member of the path history. -/
theorem mapIndicesToPaths_mem (paths : List String) (vs : List Json)
    (out : List String) (h : mapIndicesToPaths paths vs = .ok out) :
    ∀ p ∈ out, p ∈ paths := by
  induction vs generalizing out with
  | nil =>
    unfold mapIndicesToPaths at h
    injection h with h
    subst h
    intro p hp
    cases hp
  | cons v vs ih =>
    unfold mapIndicesToPaths at h
    split at h
    · exact Except.noConfusion h
    next i heq =>
      split at h
      next rest heq2 =>
        split at h
        · split at h
          next q heq3 =>
            injection h with h
            subst h
            intro p hp
            rcases List.mem_cons.mp hp with hq | hr
            · subst hq; exact List.get?_mem heq3
            · exact ih rest heq2 p hr
          next heq3 =>
            injection h with h
            subst h
            exact ih rest heq2
        · injection h with h
          subst h
          exact ih rest heq2
      next e heq2 => exact Except.noConfusion h

/-- C2 counterexample: against a four-entry history, a service proposal of five
indices including the out-of-range 7 yields a selection whose indices field still
contains all five proposed indices (7 lies outside [0,4)) and whose paths field
has four entries — more than the claimed maximum of 3. -/
theorem c2_reference_bound_cex :
    select_references selOracleBad ["p0", "p1", "p2", "p3"] ["a0", "a1", "a2", "a3"]
        lyricJA sgA 5
      = .ok { paths := ["a0", "a1", "a2", "a3"],
              indices := [Json.num 0, Json.num 1, Json.num 2, Json.num 3, Json.num 7],
              reasoning := Json.str "style continuity" }
    ∧ ¬ ((4 : Nat) ≤ 3) ∧ ¬ ((7 : Int) < 4) :=
  ⟨rfl, by decide, by decide⟩

/-- C2 (amended): indices proposed by the language service that lie outside
[0, len(previous_paths)) are discarded when mapping to paths, so every path in a
successful selection is an entry of previous_paths; however the selection's
indices field echoes the proposal unfiltered and no maximum of 3 is enforced
programmatically (the 1-3 bound is only advisory prompt text). -/
theorem c2_reference_bound (oracle : SelectorOracle)
    (previous_prompts previous_paths : List String) (current_lyric : Json)
    (style_guide : StyleGuide) (line_number : Nat) (res : SelectionResult)
    (h : select_references oracle previous_prompts previous_paths current_lyric
        style_guide line_number = .ok res) :
    res.paths.all (fun p => previous_paths.contains p) = true := by
  have hmem : ∀ p ∈ res.paths, p ∈ previous_paths := by
    unfold select_references at h
    by_cases hlen : previous_prompts.length = 0
    · rw [if_pos hlen] at h
      injection h with h
      subst h
      intro p hp
      cases hp
    · rw [if_neg hlen] at h
      split at h
      · exact Except.noConfusion h
      next selection hsel =>
        split at h
        next idxs hidx =>
          split at h
          next selected hmap =>
            injection h with h
            subst h
            exact mapIndicesToPaths_mem previous_paths idxs selected hmap
          next e hmap => exact Except.noConfusion h
        next hother => exact Except.noConfusion h
  simp only [List.all_eq_true]
  intro p hp
  exact List.elem_eq_true_of_mem (hmem p hp)

/-- A successful loop iteration appends exactly one GeneratedImage, built from the
current lyric's own data, and appends its prompt to the history. -/
theorem process_line_spec (env : DirectorEnv) (sg : StyleGuide)
    (cdp crefs : List String) (fdir : String) (total idx : Nat) (ly : LyricLine)
    (st st2 : RunState)
    (h : process_line env sg cdp crefs fdir total idx ly st = .ok st2) :
    ∃ img : GeneratedImage,
      st2.images = st.images ++ [img]
      ∧ st2.prompts = st.prompts ++ [img.prompt_used]
      ∧ img.line_number = ly.line_number
      ∧ img.start_time = ly.start_time_seconds
      ∧ img.end_time = ly.end_time_seconds
      ∧ img.used_reference = true
      ∧ img.reference_image = some (strOfPathList crefs) := by
  unfold process_line at h
  split at h
  · exact Except.noConfusion h
  next prompt plog heq =>
    split at h
    next path heq2 =>
      injection h with h
      subst h
      exact ⟨_, rfl, rfl, rfl, rfl, rfl, rfl, rfl⟩
    next e heq2 => exact Except.noConfusion h

/-- A successful run of the loop extends the state by one image per line, with the
prompt history extended by exactly the prompts of the appended images, and each
appended image drawn from its own lyric line (timing copied, character references
recorded). -/
theorem run_lines_spec (env : DirectorEnv) (sg : StyleGuide) (cdp crefs : List String)
    (fdir : String) (total : Nat) (lines : List LyricLine) (idx : Nat)
    (st st2 : RunState)
    (h : run_lines env sg cdp crefs fdir total idx lines st = .ok st2) :
    ∃ newImgs : List GeneratedImage,
      st2.images = st.images ++ newImgs
      ∧ st2.prompts = st.prompts ++ newImgs.map (fun i => i.prompt_used)
      ∧ List.Forall₂ (fun (im : GeneratedImage) (ly : LyricLine) =>
          im.line_number = ly.line_number
          ∧ im.start_time = ly.start_time_seconds
          ∧ im.end_time = ly.end_time_seconds
          ∧ im.used_reference = true
          ∧ im.reference_image = some (strOfPathList crefs)) newImgs lines := by
  induction lines generalizing idx st with
  | nil =>
    unfold run_lines at h
    injection h with h
    subst h
    exact ⟨[], by simp, by simp, List.Forall₂.nil⟩
  | cons l ls ih =>
    unfold run_lines at h
    split at h
    next stm heq =>
      obtain ⟨rest, h1, h2, h3⟩ := ih (idx + 1) stm h
      obtain ⟨img, g1, g2, g3, g4, g5, g6, g7⟩ :=
        process_line_spec env sg cdp crefs fdir total idx l st stm heq
      refine ⟨img :: rest, ?_, ?_, List.Forall₂.cons ⟨g3, g4, g5, g6, g7⟩ h3⟩
      · rw [h1, g1]; simp
      · rw [h2, g2]; simp
    next e heq => exact Except.noConfusion h

theorem run_lines_cons_ok (env : DirectorEnv) (sg : StyleGuide) (cdp crefs : List String)
    (fdir : String) (total idx : Nat) (l : LyricLine) (rest : List LyricLine)
    (st stm : RunState)
    (hp : process_line env sg cdp crefs fdir total idx l st = .ok stm) :
    run_lines env sg cdp crefs fdir total idx (l :: rest) st
      = run_lines env sg cdp crefs fdir total (idx + 1) rest stm := by
  conv_lhs => rw [run_lines]
  simp only [hp]

theorem run_lines_cons_err (env : DirectorEnv) (sg : StyleGuide) (cdp crefs : List String)
    (fdir : String) (total idx : Nat) (l : LyricLine) (rest : List LyricLine)
    (st : RunState) (lg : List LogEntry) (e : PyErr)
    (hp : process_line env sg cdp crefs fdir total idx l st = .error (lg, e)) :
    run_lines env sg cdp crefs fdir total idx (l :: rest) st = .error (lg, e) := by
  conv_lhs => rw [run_lines]
  simp only [hp]

/-- The loop splits over list append: run the first segment, then the second from
its final state, with the enumeration index advanced by the first segment's length. -/
theorem run_lines_append (env : DirectorEnv) (sg : StyleGuide) (cdp crefs : List String)
    (fdir : String) (total : Nat) (a b : List LyricLine) (idx : Nat) (st : RunState) :
    run_lines env sg cdp crefs fdir total idx (a ++ b) st
      = match run_lines env sg cdp crefs fdir total idx a st with
        | .ok st2 => run_lines env sg cdp crefs fdir total (idx + a.length) b st2
        | .error e => .error e := by
  induction a generalizing idx st with
  | nil => simp [run_lines]
  | cons l ls ih =>
    cases hp : process_line env sg cdp crefs fdir total idx l st with
    | ok stm =>
      rw [List.cons_append,
        run_lines_cons_ok env sg cdp crefs fdir total idx l (ls ++ b) st stm hp,
        run_lines_cons_ok env sg cdp crefs fdir total idx l ls st stm hp, ih]
      have harith : idx + 1 + ls.length = idx + (l :: ls).length := by
        simp [List.length_cons]; omega
      rw [harith]
    | error e =>
      obtain ⟨lg, e'⟩ := e
      rw [List.cons_append,
        run_lines_cons_err env sg cdp crefs fdir total idx l (ls ++ b) st lg e' hp,
        run_lines_cons_err env sg cdp crefs fdir total idx l ls st lg e' hp]

/-- Mapping a Forall₂ relation that forces equal projections. -/
theorem forall2_map_eq {α β γ : Type} (f : α → γ) (g : β → γ) (R : α → β → Prop)
    (hR : ∀ a b, R a b → f a = g b) :
    ∀ (as : List α) (bs : List β), List.Forall₂ R as bs → as.map f = bs.map g := by
  intro as bs h
  induction h with
  | nil => rfl
  | cons hab _ ih => simp only [List.map_cons, hR _ _ hab, ih]

/-- C6: after the loop has successfully processed the first k lines of the target
range (from the empty initial state, under any oracles and any strategy of the
language service), the prompt history has exactly k entries, the history is
exactly the prompts of the appended images in order, and the images correspond
line-for-line to the processed prefix — so the k-th processed line's prompt is the
last history entry appended. -/
theorem c6_history_monotonic (env : DirectorEnv) (sg : StyleGuide)
    (cdp crefs : List String) (fdir : String) (lg0 : List LogEntry)
    (target : List LyricLine) (k : Nat) (st2 : RunState)
    (hk : k ≤ target.length)
    (h : run_lines env sg cdp crefs fdir target.length 0 (target.take k)
        { images := [], prompts := [], log := lg0 } = .ok st2) :
    st2.prompts.length = k
    ∧ st2.prompts = st2.images.map (fun i => i.prompt_used)
    ∧ st2.images.map (fun i => i.line_number)
        = (target.take k).map (fun l => l.line_number) := by
  obtain ⟨newImgs, h1, h2, h3⟩ :=
    run_lines_spec env sg cdp crefs fdir target.length (target.take k) 0
      { images := [], prompts := [], log := lg0 } st2 h
  have h1' : st2.images = newImgs := by simpa using h1
  have h2' : st2.prompts = newImgs.map (fun i => i.prompt_used) := by simpa using h2
  have hlen : newImgs.length = (target.take k).length := h3.length_eq
  refine ⟨?_, ?_, ?_⟩
  · rw [h2', List.length_map, hlen, List.length_take]
    omega
  · rw [h2', h1']
  · rw [h1']
    exact forall2_map_eq (fun i => i.line_number) (fun l => l.line_number) _
      (fun a b hab => hab.1) newImgs (target.take k) h3

theorem c6_history_monotonic_witness :
    run_lines envA sgA cdpA crefsA (framesDir "song1") 2 0 ([l1, l2].take 2)
        { images := [], prompts := [], log := [] } = .ok st6W
    ∧ st6W.prompts.length = 2
    ∧ st6W.prompts = st6W.images.map (fun i => i.prompt_used)
    ∧ st6W.images.map (fun i => i.line_number)
        = ([l1, l2].take 2).map (fun l => l.line_number) :=
  ⟨rfl,
   c6_history_monotonic envA sgA cdpA crefsA (framesDir "song1") [] [l1, l2] 2 st6W
     (by decide) rfl⟩

/-- C7: every GeneratedImage returned by a successful generate_all_images run has
start_time and end_time exactly equal to the start_time_seconds and
end_time_seconds of the LyricLine it was generated for (the images pair up with
the target lines one-for-one, in order). -/
theorem c7_timing_passthrough (env : DirectorEnv) (target : List LyricLine)
    (sg : StyleGuide) (song_id : String) (ci : Option CustomCreativeInput)
    (lg : List LogEntry) (imgs : List GeneratedImage)
    (h : generate_all_images env target sg song_id ci = (lg, .ok imgs)) :
    List.Forall₂ (fun (im : GeneratedImage) (ly : LyricLine) =>
      im.start_time = ly.start_time_seconds ∧ im.end_time = ly.end_time_seconds)
      imgs target := by
  unfold generate_all_images at h
  split at h
  · injection h with h1 h2
    exact Except.noConfusion h2
  next crefs cdp hcd =>
    split at h
    next p hrl =>
      injection h with h1 h2
      exact Except.noConfusion h2
    next stf hrl =>
      split at h
      next sumLog e hls =>
        injection h with h1 h2
        exact Except.noConfusion h2
      next sumLog hls =>
        injection h with h1 h2
        injection h2 with h2
        obtain ⟨newImgs, k1, k2, k3⟩ :=
          run_lines_spec env sg cdp crefs (framesDir song_id) target.length target 0
            _ stf hrl
        have himgs : stf.images = newImgs := by simpa using k1
        rw [← h2, himgs]
        exact k3.imp (fun a b hab => ⟨hab.2.1, hab.2.2.1⟩)

theorem c7_timing_passthrough_witness :
    generate_all_images envA [l1, l2] sgA "song1" none
      = (logPreA ++ line1Log ++ line2Log
          ++ [LogEntry.sectionHeader "GENERATION SUMMARY", LogEntry.summaryCount 2,
              LogEntry.summaryTotal 10, LogEntry.summaryAvg (10 / ((2 : Nat) : Rat))],
         .ok [img1A, img2A])
    ∧ List.Forall₂ (fun (im : GeneratedImage) (ly : LyricLine) =>
        im.start_time = ly.start_time_seconds ∧ im.end_time = ly.end_time_seconds)
        [img1A, img2A] [l1, l2] :=
  ⟨rfl,
   c7_timing_passthrough envA [l1, l2] sgA "song1" none _ [img1A, img2A] rfl⟩

/-- C4: if the try block of line k (the image request / URL extraction / download)
raises after the loop successfully processed the k lines before it, then
generate_all_images logs a failed outcome for that line as the last log entries,
re-raises that same exception, and returns no list of GeneratedImage records —
the entries accumulated for earlier lines are not returned to the caller. -/
theorem c4_failure_propagation (env : DirectorEnv) (sg : StyleGuide) (song_id : String)
    (ci : Option CustomCreativeInput) (target : List LyricLine) (k : Nat)
    (crefs cdp : List String) (stK : RunState) (lyr : LyricLine) (p : String)
    (plog : List LogEntry) (e : PyErr)
    (hcd : generate_character_designs env sg song_id ci = .ok (crefs, cdp))
    (hk : target.get? k = some lyr)
    (hpre : run_lines env sg cdp crefs (framesDir song_id) target.length 0 (target.take k)
        { images := [], prompts := [],
          log := loggerHeader ++ log_style_guide sg ++ log_custom_input ci
            ++ log_char_designs crefs cdp } = .ok stK)
    (hcl : obtain_prompt env sg cdp target.length k lyr stK.prompts = .ok (p, plog))
    (hsd : try_generate env crefs (framesDir song_id) lyr p = .error e) :
    generate_all_images env target sg song_id ci
      = ((stK.log ++ log_line_start lyr.line_number lyr.english_text lyr.korean_text
          ++ plog ++ [referenceNote]) ++ log_generation_result false (env.clock.genTime k)
            ("ERROR: " ++ pyErrMsg e),
         .error e) := by
  have hklt : k < target.length := (List.get?_eq_some.mp hk).1
  have hgetk : target[k] = lyr := by
    obtain ⟨hh, hget⟩ := List.get?_eq_some.mp hk
    exact hget
  have hsplit : target = target.take k ++ lyr :: target.drop (k + 1) := by
    have h1 := List.take_append_drop k target
    rw [List.drop_eq_getElem_cons hklt, hgetk] at h1
    exact h1.symm
  have hfail : process_line env sg cdp crefs (framesDir song_id) target.length k lyr stK
      = .error ((stK.log ++ log_line_start lyr.line_number lyr.english_text lyr.korean_text
          ++ plog ++ [referenceNote]) ++ log_generation_result false (env.clock.genTime k)
            ("ERROR: " ++ pyErrMsg e), e) := by
    unfold process_line
    simp only [hcl]
    rw [hsd]
  have hrun : run_lines env sg cdp crefs (framesDir song_id) target.length 0 target
      { images := [], prompts := [],
        log := loggerHeader ++ log_style_guide sg ++ log_custom_input ci
          ++ log_char_designs crefs cdp }
      = .error ((stK.log ++ log_line_start lyr.line_number lyr.english_text lyr.korean_text
          ++ plog ++ [referenceNote]) ++ log_generation_result false (env.clock.genTime k)
            ("ERROR: " ++ pyErrMsg e), e) := by
    nth_rewrite 2 [hsplit]
    rw [run_lines_append env sg cdp crefs (framesDir song_id) target.length (target.take k)
      (lyr :: target.drop (k + 1)) 0 _]
    simp only [hpre]
    rw [show (0 : Nat) + (target.take k).length = k from by rw [List.length_take]; omega]
    exact run_lines_cons_err env sg cdp crefs (framesDir song_id) target.length k lyr
      (target.drop (k + 1)) stK _ e hfail
  unfold generate_all_images
  simp only [hcd]
  rw [hrun]

theorem c4_failure_propagation_witness :
    try_generate envFail crefsA (framesDir "song1") l2 "P2"
      = .error (.serviceError "Seedream API error")
    ∧ generate_all_images envFail [l1, l2] sgA "song1" none
      = ((stK1.log ++ log_line_start 2 "E2" "K2"
            ++ log_prompt_generation "P2" (some "vary") ++ [referenceNote])
          ++ log_generation_result false 2 "ERROR: Seedream API error",
         .error (.serviceError "Seedream API error")) :=
  ⟨rfl,
   c4_failure_propagation envFail sgA "song1" none [l1, l2] 1 crefsA cdpA stK1 l2 "P2"
     (log_prompt_generation "P2" (some "vary")) (.serviceError "Seedream API error")
     rfl rfl rfl rfl rfl⟩

theorem c2_reference_bound_witness :
    select_references selOracleBad ["p0", "p1", "p2", "p3"] ["a0", "a1", "a2", "a3"]
        lyricJA sgA 5
      = .ok { paths := ["a0", "a1", "a2", "a3"],
              indices := [Json.num 0, Json.num 1, Json.num 2, Json.num 3, Json.num 7],
              reasoning := Json.str "style continuity" }
    ∧ (["a0", "a1", "a2", "a3"] : List String).all
        (fun p => (["a0", "a1", "a2", "a3"] : List String).contains p) = true :=
  ⟨rfl,
   c2_reference_bound selOracleBad ["p0", "p1", "p2", "p3"] ["a0", "a1", "a2", "a3"]
     lyricJA sgA 5
     { paths := ["a0", "a1", "a2", "a3"],
       indices := [Json.num 0, Json.num 1, Json.num 2, Json.num 3, Json.num 7],
       reasoning := Json.str "style continuity" } rfl⟩

/-- The prompt phase reads only seedream_prompt and creative_reasoning from the
structured decision, so services agreeing there are interchangeable. -/
theorem obtain_prompt_congr (env1 env2 : DirectorEnv)
    (hfp : env1.claude.generate_first_prompt = env2.claude.generate_first_prompt)
    (hn : nextAgree env1.claude.generate_next_prompt env2.claude.generate_next_prompt)
    (sg : StyleGuide) (cdp : List String) (total idx : Nat) (ly : LyricLine)
    (prompts : List String) :
    obtain_prompt env1 sg cdp total idx ly prompts
      = obtain_prompt env2 sg cdp total idx ly prompts := by
  unfold obtain_prompt
  by_cases hidx : idx = 0
  · rw [if_pos hidx, if_pos hidx, hfp]
  · rw [if_neg hidx, if_neg hidx]
    have hagree := hn prompts ly sg cdp ly.line_number total
    cases hf : env1.claude.generate_next_prompt prompts ly sg cdp ly.line_number total with
    | error e1 =>
      cases hg : env2.claude.generate_next_prompt prompts ly sg cdp ly.line_number total with
      | error e2 =>
        simp only [hf, hg] at hagree
        rw [hagree]
      | ok d2 =>
        simp only [hf, hg] at hagree
    | ok d1 =>
      cases hg : env2.claude.generate_next_prompt prompts ly sg cdp ly.line_number total with
      | error e2 =>
        simp only [hf, hg] at hagree
      | ok d2 =>
        simp only [hf, hg] at hagree
        obtain ⟨hsp, hcr⟩ := hagree
        simp only [hsp, hcr]

theorem process_line_congr (env1 env2 : DirectorEnv)
    (hfp : env1.claude.generate_first_prompt = env2.claude.generate_first_prompt)
    (hn : nextAgree env1.claude.generate_next_prompt env2.claude.generate_next_prompt)
    (hsd : env1.seedream = env2.seedream) (hck : env1.clock = env2.clock)
    (sg : StyleGuide) (cdp crefs : List String) (fdir : String) (total idx : Nat)
    (ly : LyricLine) (st : RunState) :
    process_line env1 sg cdp crefs fdir total idx ly st
      = process_line env2 sg cdp crefs fdir total idx ly st := by
  have hop : ∀ prompts, obtain_prompt env1 sg cdp total idx ly prompts
      = obtain_prompt env2 sg cdp total idx ly prompts :=
    fun prompts => obtain_prompt_congr env1 env2 hfp hn sg cdp total idx ly prompts
  have ht : ∀ p, try_generate env1 crefs fdir ly p = try_generate env2 crefs fdir ly p := by
    intro p
    unfold try_generate
    rw [hsd]
  unfold process_line
  simp only [hop, ht, hck]

theorem run_lines_congr (env1 env2 : DirectorEnv)
    (hfp : env1.claude.generate_first_prompt = env2.claude.generate_first_prompt)
    (hn : nextAgree env1.claude.generate_next_prompt env2.claude.generate_next_prompt)
    (hsd : env1.seedream = env2.seedream) (hck : env1.clock = env2.clock)
    (sg : StyleGuide) (cdp crefs : List String) (fdir : String) (total : Nat) :
    ∀ (lines : List LyricLine) (idx : Nat) (st : RunState),
      run_lines env1 sg cdp crefs fdir total idx lines st
        = run_lines env2 sg cdp crefs fdir total idx lines st := by
  intro lines
  induction lines with
  | nil => intro idx st; rfl
  | cons l ls ih =>
    intro idx st
    have hpl := process_line_congr env1 env2 hfp hn hsd hck sg cdp crefs fdir total idx l st
    cases hp : process_line env2 sg cdp crefs fdir total idx l st with
    | ok stm =>
      rw [run_lines_cons_ok env1 sg cdp crefs fdir total idx l ls st stm (hpl.trans hp),
        run_lines_cons_ok env2 sg cdp crefs fdir total idx l ls st stm hp]
      exact ih (idx + 1) stm
    | error e =>
      obtain ⟨lg, e'⟩ := e
      rw [run_lines_cons_err env1 sg cdp crefs fdir total idx l ls st lg e' (hpl.trans hp),
        run_lines_cons_err env2 sg cdp crefs fdir total idx l ls st lg e' hp]

theorem generate_character_designs_congr (env1 env2 : DirectorEnv)
    (hcd : env1.claude.generate_character_design = env2.claude.generate_character_design)
    (hsd : env1.seedream = env2.seedream) (sg : StyleGuide) (song_id : String)
    (ci : Option CustomCreativeInput) :
    generate_character_designs env1 sg song_id ci
      = generate_character_designs env2 sg song_id ci := by
  unfold generate_character_designs
  simp only [hcd, hsd]

/-- C8: the director's behaviour does not depend on the decision's
use_previous_as_reference entry at all, and when the reference selector's response
omits the selected_indices entry the selection defaults to no history-based
references.  First conjunct: a response lacking selected_indices yields an empty
paths and indices selection (the conservative default).  Second conjunct: two
language services whose next-prompt responses agree on seedream_prompt and
creative_reasoning — but may differ arbitrarily on use_previous_as_reference,
including omitting it — give generate_all_images identical results, which always
condition every line on the fixed character references. -/
theorem c8_missing_field_conservative :
    (∀ (oracle : SelectorOracle) (previous_prompts previous_paths : List String)
        (current_lyric : Json) (style_guide : StyleGuide) (line_number : Nat)
        (sel : List (String × Json)),
      previous_prompts.length ≠ 0 →
      oracle.select_reference_images (promptsAnalysis previous_prompts) current_lyric
          style_guide line_number previous_prompts.length = .ok (Json.obj sel) →
      pyLookup sel "selected_indices" = none →
      select_references oracle previous_prompts previous_paths current_lyric style_guide
          line_number
        = .ok { paths := [], indices := [],
                reasoning := pyGetD (Json.obj sel) "reasoning"
                  (Json.str "No reasoning provided") })
    ∧ (∀ (env1 env2 : DirectorEnv) (target : List LyricLine) (sg : StyleGuide)
        (song_id : String) (ci : Option CustomCreativeInput),
      env1.claude.generate_character_design = env2.claude.generate_character_design →
      env1.claude.generate_first_prompt = env2.claude.generate_first_prompt →
      nextAgree env1.claude.generate_next_prompt env2.claude.generate_next_prompt →
      env1.seedream = env2.seedream →
      env1.clock = env2.clock →
      generate_all_images env1 target sg song_id ci
        = generate_all_images env2 target sg song_id ci) := by
  constructor
  · intro oracle previous_prompts previous_paths current_lyric style_guide line_number sel
      hlen hsel hmiss
    unfold select_references
    rw [if_neg hlen]
    simp only [hsel]
    rw [show pyGetD (Json.obj sel) "selected_indices" (Json.arr []) = Json.arr [] from by
      unfold pyGetD
      simp only [hmiss]]
    rfl
  · intro env1 env2 target sg song_id ci hcd hfp hn hsd hck
    unfold generate_all_images
    rw [generate_character_designs_congr env1 env2 hcd hsd sg song_id ci]
    have hrun := run_lines_congr env1 env2 hfp hn hsd hck sg
    simp only [hrun, hck]

theorem c8_missing_field_conservative_witness :
    select_references selOracleNoField ["p0"] ["a0"] lyricJA sgA 2
      = .ok { paths := [], indices := [], reasoning := Json.str "keep style" }
    ∧ generate_all_images envA [l1, l2] sgA "song1" none
      = generate_all_images envB [l1, l2] sgA "song1" none :=
  ⟨c8_missing_field_conservative.1 selOracleNoField ["p0"] ["a0"] lyricJA sgA 2
     [("reasoning", Json.str "keep style")] (by decide) rfl rfl,
   c8_missing_field_conservative.2 envA envB [l1, l2] sgA "song1" none rfl rfl
     (fun ps ly sg cdp n t => ⟨rfl, rfl⟩) rfl rfl⟩

/-! ## Lemmas for the _extract_json analysis -/

theorem parseValue_backtick (fuel : Nat) (r : List Char) :
    parseValue (fuel + 1) (backtickChar :: r) = none := by
  have hws : jsonWs backtickChar = false := by decide
  unfold parseValue
  simp only [List.dropWhile_cons, hws, if_false]
  have h1 : (backtickChar = '"') = False := by simp [backtickChar]
  have h2 : (backtickChar = obraceChar) = False := by simp [backtickChar, obraceChar]
  have h3 : (backtickChar = '[') = False := by simp [backtickChar]
  have h4 : leadsWith ['t', 'r', 'u', 'e'] (backtickChar :: r) = false := by
    simp [leadsWith, backtickChar]
  have h5 : leadsWith ['f', 'a', 'l', 's', 'e'] (backtickChar :: r) = false := by
    simp [leadsWith, backtickChar]
  have h6 : leadsWith ['n', 'u', 'l', 'l'] (backtickChar :: r) = false := by
    simp [leadsWith, backtickChar]
  have h7 : parseIntNum (backtickChar :: r) = none := by
    unfold parseIntNum parseNatNum
    simp [backtickChar, Char.isDigit]
  simp [h1, h2, h3, h4, h5, h6, h7]

theorem jsonLoads_backtick (r : List Char) : jsonLoads (backtickChar :: r) = none := by
  unfold jsonLoads
  rw [show (backtickChar :: r).length + 1 = (r.length + 1) + 1 from by simp]
  rw [parseValue_backtick]

theorem leadsWith_append_self (p r : List Char) : leadsWith p (p ++ r) = true := by
  induction p with
  | nil => rfl
  | cons c cs ih => simp [leadsWith, ih]

theorem leadsWith_fence3_false (c : Char) (cs : List Char) (h : c ≠ backtickChar) :
    leadsWith fence3 (c :: cs) = false := by
  simp [fence3, leadsWith, h.symm]

/-- After a close brace that is not the last character of the object, the remaining
object text (which still contains at least the final close brace, and no backtick)
never looks like whitespace followed by a closing fence. -/
theorem closesFence_mid (b t : List Char) (hb : ∀ c ∈ b, c ≠ backtickChar) :
    closesFence (b ++ cbraceChar :: t) = false := by
  unfold closesFence
  rw [List.dropWhile_append]
  by_cases hemp : (b.dropWhile pyRegexSpace).isEmpty
  · rw [if_pos hemp]
    rw [show (cbraceChar :: t).dropWhile pyRegexSpace = cbraceChar :: t from by
      simp [List.dropWhile_cons, show pyRegexSpace cbraceChar = false from by decide]]
    exact leadsWith_fence3_false cbraceChar t (by decide)
  · rw [if_neg hemp]
    cases hd : b.dropWhile pyRegexSpace with
    | nil => rw [hd] at hemp; simp at hemp
    | cons c cs =>
      refine leadsWith_fence3_false c (cs ++ cbraceChar :: t) ?_
      have hc : c ∈ b := by
        have hmem : c ∈ b.dropWhile pyRegexSpace := by
          rw [hd]
          exact List.mem_cons_self c cs
        exact List.Sublist.subset (List.dropWhile_sublist _) hmem
      exact hb c hc

theorem lazyClose_append (xs ys : List Char)
    (h : ∀ a b, xs = a ++ cbraceChar :: b → closesFence (b ++ ys) = false) :
    lazyClose (xs ++ ys) = (lazyClose ys).map (fun t => xs ++ t) := by
  induction xs with
  | nil =>
    rw [List.nil_append]
    cases lazyClose ys <;> simp
  | cons c xs ih =>
    have hcond : (decide (c = cbraceChar) && closesFence (xs ++ ys)) = false := by
      by_cases hc : c = cbraceChar
      · subst hc
        rw [h [] xs rfl]
        simp
      · simp [hc]
    rw [List.cons_append]
    conv_lhs => rw [lazyClose]
    rw [hcond]
    rw [if_neg Bool.false_ne_true]
    rw [ih (fun a b hab => h (c :: a) b (by rw [hab, List.cons_append]))]
    cases lazyClose ys <;> simp

theorem lazyClose_close (t : List Char) (h : closesFence t = true) :
    lazyClose (cbraceChar :: t) = some [cbraceChar] := by
  unfold lazyClose
  simp [h]

theorem closesFence_nl_fence : closesFence ('\n' :: fence3) = true := by decide

/-- The fenced pattern on a well-formed fence around a backtick-free object body:
the lazy group is exactly the object. -/
theorem fencedSearch_fence (mid : List Char)
    (hbt : ∀ c ∈ mid, c ≠ backtickChar) :
    fencedSearch (fence3 ++ (jsonTag ++ ('\n' :: ((obraceChar :: (mid ++ [cbraceChar]))
        ++ '\n' :: fence3))))
      = some (obraceChar :: (mid ++ [cbraceChar])) := by
  have hclose : ∀ a b, mid = a ++ cbraceChar :: b →
      closesFence (b ++ cbraceChar :: ('\n' :: fence3)) = false := by
    intro a b hab
    refine closesFence_mid b ('\n' :: fence3) ?_
    intro c hc
    refine hbt c ?_
    rw [hab]
    exact List.mem_append_right a (List.mem_cons_of_mem cbraceChar hc)
  have hlazy : lazyClose ((mid ++ [cbraceChar]) ++ '\n' :: fence3)
      = some (mid ++ [cbraceChar]) := by
    have hassoc : (mid ++ [cbraceChar]) ++ '\n' :: fence3
        = mid ++ cbraceChar :: ('\n' :: fence3) := by
      rw [List.append_assoc]
      rfl
    rw [hassoc, lazyClose_append mid (cbraceChar :: ('\n' :: fence3)) hclose,
      lazyClose_close ('\n' :: fence3) closesFence_nl_fence]
    rfl
  have hat : fenceAt (jsonTag ++ ('\n' :: ((obraceChar :: (mid ++ [cbraceChar]))
      ++ '\n' :: fence3))) = some (obraceChar :: (mid ++ [cbraceChar])) := by
    unfold fenceAt
    rw [if_pos (leadsWith_append_self jsonTag _)]
    rw [show (jsonTag ++ ('\n' :: ((obraceChar :: (mid ++ [cbraceChar])) ++ '\n' :: fence3))).drop 4
        = '\n' :: ((obraceChar :: (mid ++ [cbraceChar])) ++ '\n' :: fence3) from
      List.drop_left jsonTag _]
    rw [show ('\n' :: ((obraceChar :: (mid ++ [cbraceChar])) ++ '\n' :: fence3)).dropWhile
          pyRegexSpace
        = obraceChar :: ((mid ++ [cbraceChar]) ++ '\n' :: fence3) from by
      rw [List.dropWhile_cons]
      rw [if_pos (by decide)]
      rw [show (obraceChar :: (mid ++ [cbraceChar])) ++ '\n' :: fence3
          = obraceChar :: ((mid ++ [cbraceChar]) ++ '\n' :: fence3) from rfl]
      rw [List.dropWhile_cons]
      rw [if_neg (by decide)]]
    show (if obraceChar = obraceChar
        then Option.map (fun t => obraceChar :: t)
          (lazyClose ((mid ++ [cbraceChar]) ++ '\n' :: fence3))
        else none) = some (obraceChar :: (mid ++ [cbraceChar]))
    rw [if_pos rfl, hlazy]
    rfl
  show (if leadsWith fence3 (backtickChar :: (backtickChar :: backtickChar :: (jsonTag
        ++ ('\n' :: ((obraceChar :: (mid ++ [cbraceChar])) ++ '\n' :: fence3))))) = true
      then
        match fenceAt (jsonTag ++ ('\n' :: ((obraceChar :: (mid ++ [cbraceChar]))
            ++ '\n' :: fence3))) with
        | some g => some g
        | none => fencedSearch (backtickChar :: backtickChar :: (jsonTag
            ++ ('\n' :: ((obraceChar :: (mid ++ [cbraceChar])) ++ '\n' :: fence3))))
      else fencedSearch (backtickChar :: backtickChar :: (jsonTag
          ++ ('\n' :: ((obraceChar :: (mid ++ [cbraceChar])) ++ '\n' :: fence3)))))
    = some (obraceChar :: (mid ++ [cbraceChar]))
  rw [if_pos (by exact leadsWith_append_self fence3 _)]
  rw [hat]

theorem fencedSearch_none_of_no_bt (t : List Char) (h : ∀ c ∈ t, c ≠ backtickChar) :
    fencedSearch t = none := by
  induction t with
  | nil => rfl
  | cons c r ih =>
    unfold fencedSearch
    rw [leadsWith_fence3_false c r (h c (List.mem_cons_self c r))]
    exact ih (fun d hd => h d (List.mem_cons_of_mem c hd))

theorem fenceAt_none_of_no_open (x : List Char) (h : ∀ c ∈ x, c ≠ obraceChar) :
    fenceAt x = none := by
  unfold fenceAt
  have hsub : ∀ c ∈ (if leadsWith jsonTag x then x.drop 4 else x).dropWhile pyRegexSpace,
      c ∈ x := by
    intro c hc
    have h1 : c ∈ (if leadsWith jsonTag x then x.drop 4 else x) :=
      List.Sublist.subset (List.dropWhile_sublist _) hc
    by_cases ht : leadsWith jsonTag x
    · rw [if_pos ht] at h1
      exact List.Sublist.subset (List.drop_sublist _ _) h1
    · rw [if_neg ht] at h1
      exact h1
  cases hd : (if leadsWith jsonTag x then x.drop 4 else x).dropWhile pyRegexSpace with
  | nil => rfl
  | cons c r =>
    have hc : c ∈ x := by
      refine hsub c ?_
      rw [hd]
      exact List.mem_cons_self c r
    show (if c = obraceChar then Option.map (fun t => c :: t) (lazyClose r) else none) = none
    rw [if_neg (h c hc)]

theorem fencedSearch_none_of_no_open (t : List Char) (h : ∀ c ∈ t, c ≠ obraceChar) :
    fencedSearch t = none := by
  induction t with
  | nil => rfl
  | cons c r ih =>
    unfold fencedSearch
    by_cases hf : leadsWith fence3 (c :: r)
    · rw [if_pos hf]
      rw [fenceAt_none_of_no_open ((c :: r).drop 3) (fun d hd =>
        h d (List.Sublist.subset (List.drop_sublist _ _) hd))]
      exact ih (fun d hd => h d (List.mem_cons_of_mem c hd))
    · rw [if_neg hf]
      exact ih (fun d hd => h d (List.mem_cons_of_mem c hd))

theorem dropToOpen_append (pre x : List Char) (h : ∀ c ∈ pre, c ≠ obraceChar) :
    dropToOpen (pre ++ x) = dropToOpen x := by
  induction pre with
  | nil => rfl
  | cons c cs ih =>
    rw [List.cons_append]
    conv_lhs => rw [dropToOpen]
    rw [if_neg (h c (List.mem_cons_self c cs))]
    exact ih (fun d hd => h d (List.mem_cons_of_mem c hd))

theorem dropToOpen_none (x : List Char) (h : ∀ c ∈ x, c ≠ obraceChar) :
    dropToOpen x = none := by
  induction x with
  | nil => rfl
  | cons c cs ih =>
    unfold dropToOpen
    rw [if_neg (h c (List.mem_cons_self c cs))]
    exact ih (fun d hd => h d (List.mem_cons_of_mem c hd))

theorem takeToLastClose_append (a b : List Char) :
    takeToLastClose (a ++ b)
      = match takeToLastClose b with
        | some t => some (a ++ t)
        | none => takeToLastClose a := by
  induction a with
  | nil =>
    rw [List.nil_append]
    cases takeToLastClose b <;> rfl
  | cons c cs ih =>
    rw [List.cons_append]
    conv_lhs => rw [takeToLastClose]
    rw [ih]
    cases takeToLastClose b with
    | some t => rfl
    | none => rfl

theorem takeToLastClose_none (b : List Char) (h : ∀ c ∈ b, c ≠ cbraceChar) :
    takeToLastClose b = none := by
  induction b with
  | nil => rfl
  | cons c cs ih =>
    unfold takeToLastClose
    rw [ih (fun d hd => h d (List.mem_cons_of_mem c hd))]
    rw [if_neg (h c (List.mem_cons_self c cs))]

theorem greedyBraces_embedded (pre mid post : List Char)
    (hpre : ∀ c ∈ pre, c ≠ obraceChar) (hpost : ∀ c ∈ post, c ≠ cbraceChar) :
    greedyBraces (pre ++ obraceChar :: (mid ++ [cbraceChar] ++ post))
      = some (obraceChar :: (mid ++ [cbraceChar])) := by
  unfold greedyBraces
  rw [dropToOpen_append pre _ hpre]
  rw [show dropToOpen (obraceChar :: (mid ++ [cbraceChar] ++ post))
      = some (obraceChar :: (mid ++ [cbraceChar] ++ post)) from by
    unfold dropToOpen
    rw [if_pos rfl]]
  show (match takeToLastClose (mid ++ [cbraceChar] ++ post) with
    | some t => some (obraceChar :: t)
    | none => none) = some (obraceChar :: (mid ++ [cbraceChar]))
  rw [show mid ++ [cbraceChar] ++ post = (mid ++ [cbraceChar]) ++ post from rfl]
  rw [takeToLastClose_append (mid ++ [cbraceChar]) post]
  rw [takeToLastClose_none post hpost]
  rw [show takeToLastClose (mid ++ [cbraceChar]) = some (mid ++ [cbraceChar]) from by
    rw [takeToLastClose_append mid [cbraceChar]]
    rw [show takeToLastClose [cbraceChar] = some [cbraceChar] from by
      unfold takeToLastClose
      rw [show takeToLastClose ([] : List Char) = none from rfl]
      rw [if_pos rfl]]]

theorem greedyBraces_none (x : List Char) (h : ∀ c ∈ x, c ≠ obraceChar) :
    greedyBraces x = none := by
  unfold greedyBraces
  rw [dropToOpen_none x h]

/-- C3 counterexample: the claim fails when the surrounding prose itself contains a
brace.  The JSON object parses bare, but embedded after the prose
"Recall \x7bx\x7d notation. " the greedy third attempt matches from the prose's own
open brace to the object's close brace, which does not parse, so _extract_json
raises instead of returning the parsed object. -/
theorem c3_extract_json_cex :
    jsonLoads ("\x7b\"a\":1\x7d".toList) = some (Json.obj [("a", Json.num 1)])
    ∧ extractJson ("Recall \x7bx\x7d notation. \x7b\"a\":1\x7d".toList)
      = .error (extractErr ("Recall \x7bx\x7d notation. \x7b\"a\":1\x7d".toList)) :=
  ⟨rfl, rfl⟩

/-- C3 (amended): for every JSON object (as serialized text s, backtick-free, of the
shape open-brace body close-brace) and surrounding text free of the delimiter
characters, _extract_json returns the identical parsed object whether the response
body is the bare object, the object fenced in a markdown code block with the json
language tag, or the object embedded among prose containing no braces and no
backticks — trying bare loads, the fenced pattern and the greedy brace pattern in
that order — and it raises (ValueError with the response prefix) when the response
is not bare-parseable and contains no open brace at all. -/
theorem c3_extract_json (j : Json) (mid pre post bad : List Char)
    (h1 : jsonLoads (obraceChar :: (mid ++ [cbraceChar])) = some j)
    (hbt : ∀ c ∈ obraceChar :: (mid ++ [cbraceChar]), c ≠ backtickChar)
    (hpre : ∀ c ∈ pre, c ≠ obraceChar ∧ c ≠ backtickChar)
    (hpost : ∀ c ∈ post, c ≠ cbraceChar ∧ c ≠ backtickChar)
    (hbare : jsonLoads (pre ++ obraceChar :: (mid ++ [cbraceChar] ++ post)) = none)
    (hbad1 : ∀ c ∈ bad, c ≠ obraceChar)
    (hbad2 : jsonLoads bad = none) :
    extractJson (obraceChar :: (mid ++ [cbraceChar])) = .ok j
    ∧ extractJson (fence3 ++ (jsonTag ++ ('\n' :: ((obraceChar :: (mid ++ [cbraceChar]))
        ++ '\n' :: fence3)))) = .ok j
    ∧ extractJson (pre ++ obraceChar :: (mid ++ [cbraceChar] ++ post)) = .ok j
    ∧ extractJson bad = .error (extractErr bad) := by
  have hmid : ∀ c ∈ mid, c ≠ backtickChar := fun c hc =>
    hbt c (List.mem_cons_of_mem obraceChar (List.mem_append_left [cbraceChar] hc))
  refine ⟨?_, ?_, ?_, ?_⟩
  · unfold extractJson
    rw [h1]
  · have hb0 : jsonLoads (fence3 ++ (jsonTag ++ ('\n' :: ((obraceChar ::
        (mid ++ [cbraceChar])) ++ '\n' :: fence3)))) = none := jsonLoads_backtick _
    unfold extractJson
    simp only [hb0, fencedSearch_fence mid hmid, h1]
  · have hcbt : ∀ c ∈ pre ++ obraceChar :: (mid ++ [cbraceChar] ++ post),
        c ≠ backtickChar := by
      intro c hc
      rcases List.mem_append.mp hc with hinpre | hcons
      · exact (hpre c hinpre).2
      · rcases List.mem_cons.mp hcons with hob | hrest
        · subst hob; decide
        · rcases List.mem_append.mp hrest with hinmidcb | hinpost
          · rcases List.mem_append.mp hinmidcb with hinmid | hcb
            · exact hmid c hinmid
            · rw [List.mem_singleton.mp hcb]; decide
          · exact (hpost c hinpost).2
    unfold extractJson
    rw [hbare, fencedSearch_none_of_no_bt _ hcbt]
    unfold extractFallback
    simp only [greedyBraces_embedded pre mid post (fun c hc => (hpre c hc).1)
      (fun c hc => (hpost c hc).1), h1]
  · unfold extractJson
    rw [hbad2, fencedSearch_none_of_no_open bad hbad1]
    unfold extractFallback
    rw [greedyBraces_none bad hbad1]

theorem c3_extract_json_witness :
    extractJson (obraceChar :: ("\"a\":1".toList ++ [cbraceChar]))
      = .ok (Json.obj [("a", Json.num 1)])
    ∧ extractJson (fence3 ++ (jsonTag ++ ('\n' :: ((obraceChar ::
        ("\"a\":1".toList ++ [cbraceChar])) ++ '\n' :: fence3))))
      = .ok (Json.obj [("a", Json.num 1)])
    ∧ extractJson ("Model output: ".toList ++ obraceChar ::
        ("\"a\":1".toList ++ [cbraceChar] ++ " Hope this helps.".toList))
      = .ok (Json.obj [("a", Json.num 1)])
    ∧ extractJson "no structured data".toList
      = .error (extractErr "no structured data".toList) :=
  c3_extract_json (Json.obj [("a", Json.num 1)]) "\"a\":1".toList "Model output: ".toList
    " Hope this helps.".toList "no structured data".toList rfl (by decide) (by decide)
    (by decide) rfl (by decide) rfl

end LV
